import Mathlib

/-!
Shallow embedding of the retrieval-and-deduplication core of the
Test-Case-Generator repository (src/services/geminiService.ts), together
with proofs about it.

JavaScript strings are modelled as Lean `String` (operated on through
their `List Char` data), JS `Set` as `Finset (List Char)`, JS numbers
arising as quotients of small set cardinalities as `ℚ`, the JS object
`MOCK_DB` as an association list, and `Date.now()` as an explicit `Nat`
parameter.  The external LLM call is abstracted: orchestrator functions
take the raw service response text and a JSON parser as parameters.
-/

namespace TCGen

/-- Models the JS regex class `\s` for the characters relevant here
(space, tab, line feed, carriage return, vertical tab, form feed). -/
def isSpaceChar (c : Char) : Bool :=
  c = ' ' || c = '\t' || c = '\n' || c = '\r' || c = '\x0b' || c = '\x0c'

/-- The characters kept by `replace(/[^a-z0-9\s]/g, '')`. -/
def isKeptChar (c : Char) : Bool :=
  ('a' ≤ c && c ≤ 'z') || ('0' ≤ c && c ≤ '9') || isSpaceChar c

/-- JS `String.prototype.trim` on the character list: drop leading and
trailing whitespace. -/
def trimChars (l : List Char) : List Char :=
  (l.dropWhile isSpaceChar).rdropWhile isSpaceChar

/-- JS `String.prototype.trim`. -/
def jsTrim (s : String) : String :=
  String.mk (trimChars s.data)

/-- JS `String.prototype.startsWith`. -/
def jsStartsWith (s pre : String) : Bool :=
  pre.data.isPrefixOf s.data

/-- JS `String.prototype.endsWith`. -/
def jsEndsWith (s suf : String) : Bool :=
  suf.data.isSuffixOf s.data

/-- JS `str.replace(/^pre…/, '')` for a fixed literal prefix: remove the
prefix when present, otherwise leave the string unchanged. -/
def stripLeadingIf (pre s : String) : String :=
  if jsStartsWith s pre then String.mk (s.data.drop pre.data.length) else s

/-- JS `str.replace(/…suf$/, '')` for a fixed literal suffix: remove the
suffix when present, otherwise leave the string unchanged. -/
def stripTrailingIf (suf s : String) : String :=
  if jsEndsWith s suf then String.mk (s.data.take (s.data.length - suf.data.length)) else s

/-- JS `Array.prototype.join(sep)`. -/
def joinSep (sep : String) : List String → String
  | [] => ""
  | [a] => a
  | a :: b :: rest => a ++ sep ++ joinSep sep (b :: rest)

/-- JS `String.prototype.split(/\s+/)`: split on maximal runs of
whitespace.  A leading (resp. trailing) run contributes a leading
(resp. trailing) empty chunk, and the empty string yields `[""]` —
a JS split never returns an empty array. -/
def splitWs : List Char → List (List Char)
  | [] => [[]]
  | c :: rest =>
    if isSpaceChar c then
      match rest with
      | [] => [[], []]
      | c2 :: _ => if isSpaceChar c2 then splitWs rest else [] :: splitWs rest
    else
      match splitWs rest with
      | [] => [[c]]
      | t :: ts => (c :: t) :: ts

/-- `normalizeForComparison` from the source:
`str.toLowerCase().replace(/[^a-z0-9\s]/g, '').trim()`. -/
def normalizeForComparison (str : String) : String :=
  String.mk (trimChars ((str.data.map Char.toLower).filter isKeptChar))

/-- The token set `new Set(normalizeForComparison(str).split(/\s+/))`. -/
def tokenSetOf (str : String) : Finset (List Char) :=
  (splitWs (normalizeForComparison str).data).toFinset

/-- `getJaccardSimilarity` from the source: `0.0` when either token set
is empty, otherwise `|set1 ∩ set2| / |set1 ∪ set2|`. -/
def getJaccardSimilarity (str1 str2 : String) : ℚ :=
  let set1 := tokenSetOf str1
  let set2 := tokenSetOf str2
  if set1.card = 0 ∨ set2.card = 0 then 0
  else ((set1 ∩ set2).card : ℚ) / ((set1 ∪ set2).card : ℚ)

/-- The `TestCase` interface from `src/types.ts`. -/
structure TestCase where
  id : String
  title : String
  steps : List String
  expectedResult : String
deriving DecidableEq, Repr

/-- The combined content `` `${tc.steps.join(' ')} ${tc.expectedResult}` ``
used by `isDuplicate` for the content-similarity check. -/
def combinedContent (tc : TestCase) : String :=
  joinSep " " tc.steps ++ " " ++ tc.expectedResult

/-- `isDuplicate` from the source: some existing case has title
similarity `> 0.75` or combined-content similarity `> 0.85`. -/
def isDuplicate (newCase : TestCase) (existingCases : List TestCase) : Bool :=
  existingCases.any fun existing =>
    decide ((0.75 : ℚ) < getJaccardSimilarity newCase.title existing.title) ||
    decide ((0.85 : ℚ) <
      getJaccardSimilarity (combinedContent newCase) (combinedContent existing))

/-- The post-parse filtering step
`parsedCases.filter(tc => !isDuplicate(tc, existingCases))`. -/
def filterDuplicates (candidates existingCases : List TestCase) : List TestCase :=
  candidates.filter fun tc => !(isDuplicate tc existingCases)

/-- The per-suite record stored in `MOCK_DB`. -/
structure SuiteData where
  name : String
  testCases : List TestCase
deriving DecidableEq, Repr

/-- The mock database `MOCK_DB`, modelled as an association list keyed by
suite identifier (JS objects have unique keys and preserve insertion
order). -/
abbrev Store := List (String × SuiteData)

/-- The initial contents of `MOCK_DB` from the source. -/
def MOCK_DB : List (String × SuiteData) :=
  [("suite-proj-apollo",
    { name := "Project Apollo - Core Features",
      testCases :=
        [{ id := "TC-APOLLO-001", title := "User can view the main dashboard",
           steps := ["1. Log in", "2. Navigate to the dashboard URL"],
           expectedResult := "The main dashboard with widgets is displayed." },
         { id := "TC-APOLLO-002", title := "User can log out from profile menu",
           steps := ["1. Click the profile icon", "2. Click \"Log Out\""],
           expectedResult := "User is redirected to the login page." }] }),
   ("suite-proj-gemini",
    { name := "Project Gemini - User Authentication",
      testCases :=
        [{ id := "TC-GEMINI-001", title := "User can log in with valid credentials",
           steps := ["1. Enter valid email", "2. Enter valid password", "3. Click \"Log In\""],
           expectedResult := "User is successfully logged in and redirected to their dashboard." },
         { id := "TC-GEMINI-002", title := "User sees error on login with invalid password",
           steps := ["1. Enter valid email", "2. Enter an incorrect password", "3. Click \"Log In\""],
           expectedResult := "An error message \"Invalid credentials\" is shown below the password field." }] }),
   ("suite-proj-voyager",
    { name := "Project Voyager - Reporting Module",
      testCases :=
        [{ id := "TC-VOYAGER-001", title := "Generate a sales report for the last month",
           steps := ["1. Navigate to the \"Reports\" section", "2. Select \"Sales Report\"",
                     "3. Set the date range to \"Last Month\"", "4. Click the \"Generate\" button"],
           expectedResult := "A PDF of the sales report is downloaded." }] })]

/-- The fixed sentinel returned by `getRetrievedContext` for a missing or
empty suite. -/
def SENTINEL : String := "No existing test cases were found for this suite."

/-- The four-line block rendered for one test case inside
`getRetrievedContext`. -/
def renderTestCase (tc : TestCase) : String :=
  "ID: " ++ tc.id ++ "\nTitle: " ++ tc.title ++ "\nSteps: " ++
    joinSep "; " tc.steps ++ "\nExpected Result: " ++ tc.expectedResult

/-- `getRetrievedContext` from the source. -/
def getRetrievedContext (db : Store) (suiteId : String) : String :=
  match db.lookup suiteId with
  | none => SENTINEL
  | some suiteData =>
    if suiteData.testCases.length = 0 then SENTINEL
    else joinSep "\n---\n" (suiteData.testCases.map renderTestCase)

/-- The `LLMProvider` enum from `src/types.ts`. -/
inductive LLMProvider where
  | gemini : LLMProvider
  | ollama : LLMProvider
deriving DecidableEq, Repr

/-- `JSON_STRUCTURE_PROMPT` from the source (appended for the local-LLM
provider, which lacks native structured output). -/
def JSON_STRUCTURE_PROMPT : String :=
  "\nYou MUST respond with valid JSON only. The response should be an array of objects matching this structure:\n[\n  \x7b\n    \"id\": \"TC-001\",\n    \"title\": \"Test Title\",\n    \"steps\": [\"Step 1\", \"Step 2\"],\n    \"expectedResult\": \"Expected Result\"\n  \x7d\n]\n"

/-- The gap-analysis prompt branch of `createPrompt` (context present and
not the sentinel). -/
def gapAnalysisPrompt (requirements contextType retrievedContext : String) : String :=
  "You are an expert Senior QA Engineer performing a strict gap analysis.\nYour task is to analyze new requirements against a set of existing test cases retrieved from our test suite.\n\nOBJECTIVE: Generate ONLY test cases that cover functionality NOT present in the \"RETRIEVED CONTEXT\".\n\n--- RETRIEVED CONTEXT (EXISTING TESTS) ---\n"
    ++ retrievedContext
    ++ "\n--- END OF RETRIEVED CONTEXT ---\n\nNow, analyze the following NEW "
    ++ contextType ++ ".\n--- NEW " ++ contextType ++ " ---\n"
    ++ requirements ++ "\n--- END OF NEW " ++ contextType
    ++ " ---\n\nINSTRUCTIONS:\n1.  **Strict Deduplication:** Do not generate test cases for scenarios that are already covered in the RETRIEVED CONTEXT. If a test case exists for \"User Login\", do not create another \"Verify Login\" unless it covers a completely new edge case.\n2.  **Gap Analysis:** Focus exclusively on requirements not covered by the existing tests.\n3.  **Consistency:** Ensure new test cases match the granularity and style of the RETRIEVED CONTEXT.\n4.  **Return Empty:** If the new "
    ++ contextType ++ " is already fully covered by the retrieved context, you MUST return an empty JSON array []."

/-- The plain prompt branch of `createPrompt` (no usable context). -/
def simplePrompt (requirements : String) : String :=
  "You are an expert Senior QA Engineer. Based on the following requirements, generate a comprehensive list of test cases. The requirements are: \n\n"
    ++ requirements

/-- `createPrompt` from the source.  The JS truthiness test
`retrievedContext && !retrievedContext.startsWith("No existing")` treats
both `null` and the empty string as "no context". -/
def createPrompt (provider : LLMProvider) (requirements contextType : String)
    (retrievedContext : Option String) : String :=
  let basePrompt :=
    match retrievedContext with
    | some rc =>
      if !(rc == "") && !(jsStartsWith rc "No existing") then
        gapAnalysisPrompt requirements contextType rc
      else simplePrompt requirements
    | none => simplePrompt requirements
  if provider = LLMProvider.ollama then basePrompt ++ "\n\n" ++ JSON_STRUCTURE_PROMPT
  else basePrompt

/-- Decimal digits of `n`, least significant first, with explicit fuel
(`n + 1` steps always suffice). -/
def natDecimalDigits : Nat → Nat → List Nat
  | 0, _ => []
  | fuel + 1, n => if n < 10 then [n] else n % 10 :: natDecimalDigits fuel (n / 10)

/-- Models the JS template-literal rendering `` `${n}` `` of a
non-negative integer: its decimal digit string. -/
def natToDecimalString (n : Nat) : String :=
  String.mk (((natDecimalDigits (n + 1) n).map Nat.digitChar).reverse)

/-- The suite identifier `` `suite-custom-${Date.now()}` `` built by
`registerNewSuite`; the current time is an explicit parameter. -/
def suiteIdFor (now : Nat) : String :=
  "suite-custom-" ++ natToDecimalString now

/-- `registerNewSuite` from the source: build a timestamp-derived id,
store an empty suite under it only when the key is not already present,
and return the id with the requested name. -/
def registerNewSuite (db : Store) (now : Nat) (suiteName : String) :
    (String × String) × Store :=
  let suiteId := suiteIdFor now
  match db.lookup suiteId with
  | none => ((suiteId, suiteName), db ++ [(suiteId, { name := suiteName, testCases := [] })])
  | some _ => ((suiteId, suiteName), db)

/-- `deleteSuite` from the source: remove the key and return `true` when
present, otherwise return `false` and leave the store unchanged. -/
def deleteSuite (db : Store) (suiteId : String) : Bool × Store :=
  match db.lookup suiteId with
  | some _ => (true, db.filter fun kv => !(kv.1 == suiteId))
  | none => (false, db)

/-- The code-fence stripping applied to the trimmed response text before
`JSON.parse`: first `` ```json `` fences, then bare `` ``` `` fences. -/
def stripCodeFence (jsonText : String) : String :=
  let t1 :=
    if jsStartsWith jsonText "```json" then
      stripTrailingIf "\n```" (stripLeadingIf "```json\n" jsonText)
    else jsonText
  if jsStartsWith t1 "```" then
    stripTrailingIf "\n```" (stripLeadingIf "```\n" t1)
  else t1

/-- `generateTestCasesFromText` from the source, with the external LLM
call abstracted: `serviceResponse` is the raw response text the service
returned for the composed prompt, and `parse` models `JSON.parse` plus
the `TestCase[]` typing (`none` = parse failure).  Returns the composed
prompt together with the final result (`none` = the call throws). -/
def generateTestCasesFromText (db : Store) (provider : LLMProvider)
    (requirements : String) (suiteId : Option String)
    (serviceResponse : String) (parse : String → Option (List TestCase)) :
    String × Option (List TestCase) :=
  let retrievedContext : Option String :=
    match suiteId with
    | some sid => if sid == "" then none else some (getRetrievedContext db sid)
    | none => none
  let prompt := createPrompt provider requirements "REQUIREMENTS" retrievedContext
  let jsonText := jsTrim serviceResponse
  let result : Option (List TestCase) :=
    if jsonText = "" ∨ jsonText = "[]" then some []
    else
      match parse (stripCodeFence jsonText) with
      | none => none
      | some parsedCases =>
        let finalCases :=
          match suiteId with
          | some sid =>
            if sid == "" then parsedCases
            else
              match db.lookup sid with
              | some suiteData =>
                if 0 < suiteData.testCases.length then
                  filterDuplicates parsedCases suiteData.testCases
                else parsedCases
              | none => parsedCases
          | none => parsedCases
        some finalCases
  (prompt, result)

/-- `generateTestCasesFromScreenshot` from the source, abstracted the
same way; the image payload goes to the external service, not into the
text prompt, and the post-generation processing is a verbatim copy of
the text entry point's. -/
def generateTestCasesFromScreenshot (db : Store) (provider : LLMProvider)
    (_imageData : String) (suiteId : Option String)
    (serviceResponse : String) (parse : String → Option (List TestCase)) :
    String × Option (List TestCase) :=
  let retrievedContext : Option String :=
    match suiteId with
    | some sid => if sid == "" then none else some (getRetrievedContext db sid)
    | none => none
  let textPrompt := createPrompt provider
    "Analyze the following screenshot of a user interface. Based on the visible UI elements and their potential functionality, generate test cases."
    "UI SCREENSHOT" retrievedContext
  let jsonText := jsTrim serviceResponse
  let result : Option (List TestCase) :=
    if jsonText = "" ∨ jsonText = "[]" then some []
    else
      match parse (stripCodeFence jsonText) with
      | none => none
      | some parsedCases =>
        let finalCases :=
          match suiteId with
          | some sid =>
            if sid == "" then parsedCases
            else
              match db.lookup sid with
              | some suiteData =>
                if 0 < suiteData.testCases.length then
                  filterDuplicates parsedCases suiteData.testCases
                else parsedCases
              | none => parsedCases
          | none => parsedCases
        some finalCases
  (textPrompt, result)

/-! ### Basic lemmas about the tokenizer -/

theorem splitWs_ne_nil (l : List Char) : splitWs l ≠ [] := by
  induction l with
  | nil => simp [splitWs]
  | cons c rest ih =>
    by_cases hc : isSpaceChar c = true
    · cases rest with
      | nil => simp [splitWs, hc]
      | cons c2 rest2 =>
        by_cases hc2 : isSpaceChar c2 = true
        · simpa [splitWs, hc, hc2] using ih
        · simp [splitWs, hc, hc2]
    · cases h : splitWs rest with
      | nil => exact absurd h ih
      | cons t ts => simp [splitWs, hc, h]

theorem splitWs_boundary (l : List Char) (hne : l ≠ [])
    (hlast : ∀ c, l.getLast? = some c → isSpaceChar c = false) :
    ([] ∉ (splitWs l).tail) ∧
      ((splitWs l).head? = some [] → ∃ c, l.head? = some c ∧ isSpaceChar c = true) := by
  induction l with
  | nil => exact absurd rfl hne
  | cons c rest ih =>
    cases rest with
    | nil =>
      have hc : isSpaceChar c = false := hlast c (by simp)
      refine ⟨?_, ?_⟩
      · simp [splitWs, hc]
      · intro h
        simp [splitWs, hc] at h
    | cons c2 rest2 =>
      have hlast' : ∀ c', (c2 :: rest2).getLast? = some c' → isSpaceChar c' = false := by
        intro c' h
        exact hlast c' (by rw [List.getLast?_cons_cons]; exact h)
      have ih' := ih (by simp) hlast'
      by_cases hc : isSpaceChar c = true
      · by_cases hc2 : isSpaceChar c2 = true
        · refine ⟨?_, ?_⟩
          · simpa [splitWs, hc, hc2] using ih'.1
          · intro _
            exact ⟨c, rfl, hc⟩
        · refine ⟨?_, ?_⟩
          · have hsplit : splitWs (c :: c2 :: rest2) = [] :: splitWs (c2 :: rest2) := by
              simp [splitWs, hc, hc2]
            rw [hsplit]
            intro hmem
            simp only [List.tail_cons] at hmem
            obtain ⟨t, ts, hts⟩ := List.exists_cons_of_ne_nil (splitWs_ne_nil (c2 :: rest2))
            rw [hts] at hmem
            rcases List.mem_cons.mp hmem with h | h
            · have hhead : (splitWs (c2 :: rest2)).head? = some [] := by
                rw [hts, ← h]; rfl
              obtain ⟨c', hc', hsp⟩ := ih'.2 hhead
              simp only [List.head?_cons, Option.some.injEq] at hc'
              rw [← hc'] at hsp
              exact absurd hsp (by simp [hc2])
            · have : [] ∈ (splitWs (c2 :: rest2)).tail := by rw [hts]; simpa using h
              exact ih'.1 this
          · intro _
            exact ⟨c, rfl, hc⟩
      · obtain ⟨t, ts, hts⟩ := List.exists_cons_of_ne_nil (splitWs_ne_nil (c2 :: rest2))
        have hsplit : splitWs (c :: c2 :: rest2) = (c :: t) :: ts := by
          rw [splitWs, if_neg hc, hts]
        refine ⟨?_, ?_⟩
        · rw [hsplit]
          intro hmem
          simp only [List.tail_cons] at hmem
          have : [] ∈ (splitWs (c2 :: rest2)).tail := by rw [hts]; simpa using hmem
          exact ih'.1 this
        · intro h
          rw [hsplit] at h
          simp at h

theorem nil_not_mem_splitWs (l : List Char) (hne : l ≠ [])
    (hhead : ∀ c, l.head? = some c → isSpaceChar c = false)
    (hlast : ∀ c, l.getLast? = some c → isSpaceChar c = false) :
    [] ∉ splitWs l := by
  intro hmem
  obtain ⟨t, ts, hts⟩ := List.exists_cons_of_ne_nil (splitWs_ne_nil l)
  have hb := splitWs_boundary l hne hlast
  rw [hts] at hmem
  rcases List.mem_cons.mp hmem with h | h
  · obtain ⟨c, hc, hsp⟩ := hb.2 (by rw [hts, ← h]; rfl)
    have := hhead c hc
    simp [this] at hsp
  · exact hb.1 (by rw [hts]; simpa using h)

/-! ### Boundary lemmas about trimming -/

theorem trimChars_head (m : List Char) (c : Char)
    (h : (trimChars m).head? = some c) : isSpaceChar c = false := by
  have hpre : trimChars m <+: m.dropWhile isSpaceChar := List.rdropWhile_prefix _ _
  obtain ⟨s, hs⟩ := hpre
  have huh : (m.dropWhile isSpaceChar).head? = some c := by
    rw [← hs]
    cases ht : trimChars m with
    | nil => rw [ht] at h; simp at h
    | cons a r =>
      rw [ht] at h
      simp only [List.head?_cons, Option.some.injEq] at h
      simp [h]
  have hune : m.dropWhile isSpaceChar ≠ [] := by
    intro h0; rw [h0] at huh; simp at huh
  have hhead : (m.dropWhile isSpaceChar).head hune = c := by
    have h2 := List.head?_eq_head hune
    rw [h2] at huh
    exact Option.some.inj huh
  rw [← hhead]
  simpa using List.head_dropWhile_not isSpaceChar m hune

theorem trimChars_getLast (m : List Char) (c : Char)
    (h : (trimChars m).getLast? = some c) : isSpaceChar c = false := by
  have htne : trimChars m ≠ [] := by
    intro h0; rw [h0] at h; simp at h
  have hlast : (trimChars m).getLast htne = c := by
    have h2 := List.getLast?_eq_getLast (trimChars m) htne
    rw [h2] at h
    exact Option.some.inj h
  rw [← hlast]
  simpa using List.rdropWhile_last_not isSpaceChar (m.dropWhile isSpaceChar) htne

/-! ### Token sets and similarity -/

theorem string_eq_iff_data_eq (a b : String) : a = b ↔ a.data = b.data := by
  constructor
  · rintro rfl; rfl
  · intro h; cases a; cases b; exact congrArg String.mk h

theorem tokenSetOf_card_pos (s : String) : 0 < (tokenSetOf s).card := by
  obtain ⟨t, ts, hts⟩ :=
    List.exists_cons_of_ne_nil (splitWs_ne_nil (normalizeForComparison s).data)
  refine Finset.card_pos.mpr ⟨t, ?_⟩
  unfold tokenSetOf
  rw [hts]
  simp

theorem tokenSetOf_of_norm_empty (s : String) (h : normalizeForComparison s = "") :
    tokenSetOf s = {([] : List Char)} := by
  unfold tokenSetOf
  have hd : (normalizeForComparison s).data = [] := by rw [h]
  rw [hd]
  decide

theorem nil_not_mem_tokenSetOf (s : String) (h : normalizeForComparison s ≠ "") :
    ([] : List Char) ∉ tokenSetOf s := by
  have hdata : (normalizeForComparison s).data ≠ [] := by
    intro h0
    exact h ((string_eq_iff_data_eq _ _).mpr (by rw [h0]))
  intro hmem
  unfold tokenSetOf at hmem
  rw [List.mem_toFinset] at hmem
  exact nil_not_mem_splitWs _ hdata
    (fun c hc => trimChars_head ((s.data.map Char.toLower).filter isKeptChar) c hc)
    (fun c hc => trimChars_getLast ((s.data.map Char.toLower).filter isKeptChar) c hc) hmem

theorem getJaccardSimilarity_symm (a b : String) :
    getJaccardSimilarity a b = getJaccardSimilarity b a := by
  simp only [getJaccardSimilarity]
  by_cases h : (tokenSetOf a).card = 0 ∨ (tokenSetOf b).card = 0
  · rw [if_pos h, if_pos (h.elim Or.inr Or.inl)]
  · rw [if_neg h, if_neg (fun h' => h (h'.elim Or.inr Or.inl)),
      Finset.inter_comm, Finset.union_comm]

theorem getJaccardSimilarity_self (s : String) : getJaccardSimilarity s s = 1 := by
  simp only [getJaccardSimilarity]
  have hcard : (tokenSetOf s).card ≠ 0 := Nat.pos_iff_ne_zero.mp (tokenSetOf_card_pos s)
  rw [if_neg (by simp [hcard]), Finset.inter_self, Finset.union_self]
  exact div_self (Nat.cast_ne_zero.mpr hcard)

theorem getJaccardSimilarity_empty_left (a b : String)
    (ha : normalizeForComparison a = "") (hb : normalizeForComparison b ≠ "") :
    getJaccardSimilarity a b = 0 := by
  simp only [getJaccardSimilarity]
  have h1 : tokenSetOf a = {([] : List Char)} := tokenSetOf_of_norm_empty a ha
  have h2 : ([] : List Char) ∉ tokenSetOf b := nil_not_mem_tokenSetOf b hb
  have hint : tokenSetOf a ∩ tokenSetOf b = ∅ := by
    rw [h1]
    exact Finset.singleton_inter_of_not_mem h2
  rw [if_neg ?_, hint]
  · simp
  · push_neg
    refine ⟨?_, Nat.pos_iff_ne_zero.mp (tokenSetOf_card_pos b)⟩
    rw [h1]
    simp

theorem getJaccardSimilarity_both_empty (a b : String)
    (ha : normalizeForComparison a = "") (hb : normalizeForComparison b = "") :
    getJaccardSimilarity a b = 1 := by
  simp only [getJaccardSimilarity]
  rw [tokenSetOf_of_norm_empty a ha, tokenSetOf_of_norm_empty b hb,
    Finset.inter_self, Finset.union_self]
  norm_num

/-! ### Context builder and prompt lemmas -/

theorem createPrompt_sentinel (p : LLMProvider) (req ct : String) :
    createPrompt p req ct (some SENTINEL) = createPrompt p req ct none := by
  have h : (!(SENTINEL == "") && !(jsStartsWith SENTINEL "No existing")) = false := by decide
  simp [createPrompt, h]

theorem joinSep_cons_data (sep a : String) (l : List String) :
    ∃ t, (joinSep sep (a :: l)).data = a.data ++ t := by
  cases l with
  | nil => exact ⟨[], by simp [joinSep]⟩
  | cons b rest =>
    exact ⟨sep.data ++ (joinSep sep (b :: rest)).data, by
      simp [joinSep, String.data_append, List.append_assoc]⟩

theorem renderTestCase_head (tc : TestCase) :
    (renderTestCase tc).data.head? = some 'I' := by
  simp [renderTestCase, String.data_append]

theorem joined_render_ne_sentinel (tcs : List TestCase) (h : tcs ≠ []) :
    joinSep "\n---\n" (tcs.map renderTestCase) ≠ SENTINEL := by
  obtain ⟨tc, rest, rfl⟩ := List.exists_cons_of_ne_nil h
  intro heq
  have hdata := (string_eq_iff_data_eq _ _).mp heq
  rw [List.map_cons] at hdata
  obtain ⟨t, ht⟩ := joinSep_cons_data "\n---\n" (renderTestCase tc) (rest.map renderTestCase)
  rw [ht] at hdata
  have h1 : ((renderTestCase tc).data ++ t).head? = some 'I' := by
    rw [List.head?_append, renderTestCase_head]
    rfl
  rw [hdata] at h1
  exact absurd h1 (by decide)

/-! ### Suite store lemmas -/

theorem lookup_filter_self (db : Store) (sid : String) :
    (db.filter fun kv => !(kv.1 == sid)).lookup sid = none := by
  induction db with
  | nil => rfl
  | cons kv rest ih =>
    obtain ⟨k, v⟩ := kv
    by_cases h : k = sid
    · have hb : (!((k, v).1 == sid)) = false := by simp [h]
      simp only [List.filter, hb]
      exact ih
    · have hb : (!((k, v).1 == sid)) = true := by simp [h]
      simp only [List.filter, hb]
      have hk : (sid == k) = false := by simp [Ne.symm h]
      simp only [List.lookup, hk]
      exact ih

theorem lookup_filter_other (db : Store) (sid k : String) (hk : k ≠ sid) :
    (db.filter fun kv => !(kv.1 == sid)).lookup k = db.lookup k := by
  induction db with
  | nil => rfl
  | cons kv rest ih =>
    obtain ⟨k2, v⟩ := kv
    by_cases h : k2 = sid
    · have hb : (!((k2, v).1 == sid)) = false := by simp [h]
      simp only [List.filter, hb]
      have hkk : (k == k2) = false := by
        subst h
        simp [hk]
      simp only [List.lookup, hkk]
      exact ih
    · have hb : (!((k2, v).1 == sid)) = true := by simp [h]
      simp only [List.filter, hb]
      by_cases h2 : k = k2
      · simp only [List.lookup, show (k == k2) = true from by simp [h2]]
      · simp only [List.lookup, show (k == k2) = false from by simp [h2]]
        exact ih

/-! ### Decimal rendering of timestamps -/

/-- Value of a least-significant-first decimal digit list. -/
def valOfDigits : List Nat → Nat
  | [] => 0
  | d :: ds => d + 10 * valOfDigits ds

theorem natDecimalDigits_lt (fuel : Nat) : ∀ (n : Nat), ∀ d ∈ natDecimalDigits fuel n, d < 10 := by
  induction fuel with
  | zero => intro n d hd; simp [natDecimalDigits] at hd
  | succ fuel ih =>
    intro n d hd
    simp only [natDecimalDigits] at hd
    by_cases h : n < 10
    · rw [if_pos h] at hd
      simp at hd
      omega
    · rw [if_neg h] at hd
      rcases List.mem_cons.mp hd with h1 | h1
      · subst h1; exact Nat.mod_lt _ (by norm_num)
      · exact ih (n / 10) d h1

theorem valOfDigits_natDecimalDigits (fuel : Nat) :
    ∀ (n : Nat), n < fuel → valOfDigits (natDecimalDigits fuel n) = n := by
  induction fuel with
  | zero => intro n h; omega
  | succ fuel ih =>
    intro n h
    simp only [natDecimalDigits]
    by_cases h10 : n < 10
    · rw [if_pos h10]; simp [valOfDigits]
    · rw [if_neg h10]
      simp only [valOfDigits]
      rw [ih (n / 10) (by omega)]
      omega

theorem digitChar_val (d : Nat) (hd : d < 10) : (Nat.digitChar d).toNat - 48 = d := by
  interval_cases d <;> rfl

theorem natToDecimalString_inj (m n : Nat)
    (h : natToDecimalString m = natToDecimalString n) : m = n := by
  have hdata : (((natDecimalDigits (m + 1) m).map Nat.digitChar).reverse) =
      (((natDecimalDigits (n + 1) n).map Nat.digitChar).reverse) :=
    (string_eq_iff_data_eq _ _).mp h
  have hmap := List.reverse_injective hdata
  have hback : ∀ (l : List Nat), (∀ d ∈ l, d < 10) →
      (l.map Nat.digitChar).map (fun c => c.toNat - 48) = l := by
    intro l hl
    rw [List.map_map]
    calc l.map ((fun c : Char => c.toNat - 48) ∘ Nat.digitChar)
        = l.map id := List.map_eq_map_iff.mpr fun d hd => digitChar_val d (hl d hd)
      _ = l := List.map_id l
  have hdig : natDecimalDigits (m + 1) m = natDecimalDigits (n + 1) n := by
    rw [← hback (natDecimalDigits (m + 1) m) (natDecimalDigits_lt _ m),
      ← hback (natDecimalDigits (n + 1) n) (natDecimalDigits_lt _ n), hmap]
  calc m = valOfDigits (natDecimalDigits (m + 1) m) :=
        (valOfDigits_natDecimalDigits (m + 1) m (by omega)).symm
    _ = valOfDigits (natDecimalDigits (n + 1) n) := by rw [hdig]
    _ = n := valOfDigits_natDecimalDigits (n + 1) n (by omega)

theorem suiteIdFor_inj (m n : Nat) (h : suiteIdFor m = suiteIdFor n) : m = n := by
  apply natToDecimalString_inj
  have hdata := (string_eq_iff_data_eq _ _).mp h
  simp only [suiteIdFor, String.data_append] at hdata
  have := List.append_cancel_left hdata
  exact (string_eq_iff_data_eq _ _).mpr this

theorem registerNewSuite_fst (db : Store) (t : Nat) (nm : String) :
    (registerNewSuite db t nm).1.1 = suiteIdFor t := by
  unfold registerNewSuite
  cases h : List.lookup (suiteIdFor t) db <;> simp [h]

/-! ### Trim and code-fence lemmas -/

theorem mk_data (s : String) : String.mk s.data = s := by
  cases s
  rfl

theorem trimChars_eq_self (l : List Char)
    (hh : ∀ c, l.head? = some c → isSpaceChar c = false)
    (hl : ∀ c, l.getLast? = some c → isSpaceChar c = false) :
    trimChars l = l := by
  unfold trimChars
  have h1 : l.dropWhile isSpaceChar = l := by
    cases l with
    | nil => rfl
    | cons c rest =>
      rw [List.dropWhile_cons, if_neg (by simp [hh c rfl])]
  rw [h1]
  rw [List.rdropWhile_eq_self_iff]
  intro hne
  have := hl (l.getLast hne) ((List.getLast?_eq_getLast l hne))
  simp [this]

theorem jsTrim_eq_self (s : String)
    (hh : ∀ c, s.data.head? = some c → isSpaceChar c = false)
    (hl : ∀ c, s.data.getLast? = some c → isSpaceChar c = false) :
    jsTrim s = s := by
  unfold jsTrim
  rw [trimChars_eq_self s.data hh hl, mk_data]

/-- Data of the fenced response `` ```json\n<body>\n``` ``. -/
theorem fenced_data (body : String) :
    ("```json\n" ++ body ++ "\n```").data =
      "```json\n".data ++ (body.data ++ "\n```".data) := by
  rw [String.data_append, String.data_append, List.append_assoc]

theorem fenced_trim (body : String) :
    jsTrim ("```json\n" ++ body ++ "\n```") = "```json\n" ++ body ++ "\n```" := by
  apply jsTrim_eq_self
  · intro c hc
    rw [fenced_data] at hc
    simp only [List.head?_append] at hc
    have : ("```json\n".data.head?) = some '`' := by decide
    rw [this] at hc
    simp only [Option.or_some] at hc
    cases hc
    decide
  · intro c hc
    rw [fenced_data] at hc
    rw [List.getLast?_append_of_ne_nil _ (by
      intro h0
      have h4 : ("\n```".data ≠ []) := by decide
      exact h4 (List.append_eq_nil.mp h0).2)] at hc
    rw [List.getLast?_append_of_ne_nil _ (by decide)] at hc
    have h5 : ("\n```".data.getLast?) = some '`' := by decide
    rw [h5] at hc
    cases hc
    decide

theorem fenced_ne_empty (body : String) : ("```json\n" ++ body ++ "\n```") ≠ "" := by
  intro h
  have := (string_eq_iff_data_eq _ _).mp h
  rw [fenced_data] at this
  simp at this

theorem fenced_ne_brackets (body : String) : ("```json\n" ++ body ++ "\n```") ≠ "[]" := by
  intro h
  have hd := (string_eq_iff_data_eq _ _).mp h
  rw [fenced_data] at hd
  have h1 : ("```json\n".data ++ (body.data ++ "\n```".data)).head? = some '`' := by
    rw [List.head?_append]
    rfl
  rw [hd] at h1
  exact absurd h1 (by decide)

theorem prefix_trans_isPrefixOf (p q s : List Char) (hpq : p <+: q)
    (h : q.isPrefixOf s = true) : p.isPrefixOf s = true :=
  List.isPrefixOf_iff_prefix.mpr (hpq.trans (List.isPrefixOf_iff_prefix.mp h))

theorem stripCodeFence_plain (body : String) (hb : jsStartsWith body "```" = false) :
    stripCodeFence body = body := by
  have h1 : jsStartsWith body "```json" = false := by
    by_contra h
    rw [Bool.not_eq_false] at h
    have := prefix_trans_isPrefixOf "```".data "```json".data body.data (by decide) h
    rw [show ("```".data.isPrefixOf body.data) = jsStartsWith body "```" from rfl, hb] at this
    cases this
  unfold stripCodeFence
  simp only [h1, hb, Bool.false_eq_true, if_false]

theorem stripCodeFence_fenced (body : String) (hb : jsStartsWith body "```" = false) :
    stripCodeFence ("```json\n" ++ body ++ "\n```") = body := by
  have hstart : jsStartsWith ("```json\n" ++ body ++ "\n```") "```json" = true := by
    unfold jsStartsWith
    rw [fenced_data]
    refine List.isPrefixOf_iff_prefix.mpr ?_
    exact (show ("```json".data <+: "```json\n".data) from by decide).trans
      (List.prefix_append _ _)
  have hstart8 : jsStartsWith ("```json\n" ++ body ++ "\n```") "```json\n" = true := by
    unfold jsStartsWith
    rw [fenced_data]
    exact List.isPrefixOf_iff_prefix.mpr ⟨body.data ++ "\n```".data, rfl⟩
  have hdrop : stripLeadingIf "```json\n" ("```json\n" ++ body ++ "\n```") =
      String.mk (body.data ++ "\n```".data) := by
    unfold stripLeadingIf
    rw [hstart8, if_pos rfl]
    congr 1
  have hend : jsEndsWith (String.mk (body.data ++ "\n```".data)) "\n```" = true := by
    unfold jsEndsWith
    exact List.isSuffixOf_iff_suffix.mpr ⟨body.data, rfl⟩
  have htake : stripTrailingIf "\n```" (String.mk (body.data ++ "\n```".data)) = body := by
    unfold stripTrailingIf
    rw [hend, if_pos rfl]
    have hlen : (String.mk (body.data ++ "\n```".data)).data.length - ("\n```").data.length
        = body.data.length := by
      simp
    rw [show (String.mk (body.data ++ "\n```".data)).data = body.data ++ "\n```".data from rfl,
      hlen, List.take_left, mk_data]
  unfold stripCodeFence
  rw [hstart, if_pos rfl, hdrop, htake]
  simp [hb]

/-! ### Orchestrator lemmas -/

theorem gen_snd_eq (db : Store) (p : LLMProvider) (req img : String)
    (sid : Option String) (resp : String) (parse : String → Option (List TestCase)) :
    (generateTestCasesFromScreenshot db p img sid resp parse).2 =
      (generateTestCasesFromText db p req sid resp parse).2 := rfl

theorem gen_zero_results (db : Store) (p : LLMProvider) (req : String) (sid : Option String)
    (parse : String → Option (List TestCase)) (raw : String)
    (h : jsTrim raw = "" ∨ jsTrim raw = "[]") :
    (generateTestCasesFromText db p req sid raw parse).2 = some [] := by
  simp only [generateTestCasesFromText]
  rw [if_pos h]

theorem gen_unknown_suite (db : Store) (p : LLMProvider) (req sid resp : String)
    (parse : String → Option (List TestCase)) (hsid : sid ≠ "")
    (hmiss : db.lookup sid = none) :
    generateTestCasesFromText db p req (some sid) resp parse =
      generateTestCasesFromText db p req none resp parse := by
  have hbe : (sid == "") = false := by simp [hsid]
  have hctx : getRetrievedContext db sid = SENTINEL := by
    unfold getRetrievedContext
    rw [hmiss]
  simp only [generateTestCasesFromText, hbe, hctx, hmiss, Bool.false_eq_true, if_false,
    createPrompt_sentinel]

theorem gen_fenced (db : Store) (p : LLMProvider) (req : String) (sid : Option String)
    (parse : String → Option (List TestCase)) (body : String)
    (ht : jsTrim body = body) (h1 : body ≠ "") (h2 : body ≠ "[]")
    (h3 : jsStartsWith body "```" = false) :
    (generateTestCasesFromText db p req sid ("```json\n" ++ body ++ "\n```") parse).2 =
      (generateTestCasesFromText db p req sid body parse).2 := by
  simp only [generateTestCasesFromText]
  rw [fenced_trim body, ht]
  rw [if_neg (by push_neg; exact ⟨fenced_ne_empty body, fenced_ne_brackets body⟩),
    if_neg (by push_neg; exact ⟨h1, h2⟩)]
  rw [stripCodeFence_fenced body h3, stripCodeFence_plain body h3]

/-! ### Claim theorems -/

/-- C1: a candidate is flagged duplicate by `isDuplicate` against a reference
sequence iff some member of the reference has title Jaccard similarity
strictly greater than 0.75, or combined-content (space-joined steps followed
by the expected result) Jaccard similarity strictly greater than 0.85; a
score exactly at a threshold does not count. -/
theorem C1_isDuplicate_iff (newCase : TestCase) (existingCases : List TestCase) :
    isDuplicate newCase existingCases = true ↔
      ∃ e ∈ existingCases,
        (0.75 : ℚ) < getJaccardSimilarity newCase.title e.title ∨
        (0.85 : ℚ) < getJaccardSimilarity (combinedContent newCase) (combinedContent e) := by
  simp [isDuplicate, List.any_eq_true]

/-- C2 counterexample: two empty strings get similarity 1, not 0 — the JS
split of an empty string yields a singleton containing the empty token, so
the empty-set guard never fires and the two token sets coincide. -/
theorem C2_counterexample :
    getJaccardSimilarity "" "" = 1 ∧ ¬(getJaccardSimilarity "" "" = 0) := by
  have h : getJaccardSimilarity "" "" = 1 := getJaccardSimilarity_both_empty "" "" rfl rfl
  refine ⟨h, ?_⟩
  rw [h]
  norm_num

/-- C2 (amended): `similarity` returns 0 whenever exactly one of the two
strings normalizes to empty; when both normalize to empty (in particular for
two empty strings) the token sets each consist of the single empty token and
the similarity is 1, so two empty strings are treated as identical. -/
theorem C2_similarity_empty (a b : String) :
    (normalizeForComparison a = "" → normalizeForComparison b ≠ "" →
      getJaccardSimilarity a b = 0) ∧
    (normalizeForComparison a ≠ "" → normalizeForComparison b = "" →
      getJaccardSimilarity a b = 0) ∧
    (normalizeForComparison a = "" → normalizeForComparison b = "" →
      getJaccardSimilarity a b = 1) := by
  refine ⟨fun ha hb => getJaccardSimilarity_empty_left a b ha hb, fun ha hb => ?_,
    fun ha hb => getJaccardSimilarity_both_empty a b ha hb⟩
  rw [getJaccardSimilarity_symm]
  exact getJaccardSimilarity_empty_left b a hb ha

/-- C2 witness: concrete instances of the amended statement. -/
theorem C2_similarity_empty_witness :
    getJaccardSimilarity "" "reset password" = 0 ∧
    getJaccardSimilarity "reset password" "" = 0 ∧
    getJaccardSimilarity "" "  !!  " = 1 :=
  ⟨(C2_similarity_empty "" "reset password").1 (by decide) (by decide),
    (C2_similarity_empty "reset password" "").2.1 (by decide) (by decide),
    (C2_similarity_empty "" "  !!  ").2.2 (by decide) (by decide)⟩

/-- C3: the post-parse filtering step checks each candidate independently
against the fixed reference sequence only (membership depends only on the
candidate and the reference, and the filter distributes over appending
candidate batches), preserves candidate order (the output is a sublist of
the input), and passes every candidate through unchanged when the reference
is empty. -/
theorem C3_filterDuplicates_spec (candidates existingCases : List TestCase) :
    (filterDuplicates candidates existingCases).Sublist candidates ∧
    (∀ tc, tc ∈ filterDuplicates candidates existingCases ↔
      tc ∈ candidates ∧ isDuplicate tc existingCases = false) ∧
    (∀ xs ys, filterDuplicates (xs ++ ys) existingCases =
      filterDuplicates xs existingCases ++ filterDuplicates ys existingCases) ∧
    filterDuplicates candidates [] = candidates := by
  refine ⟨List.filter_sublist _, fun tc => ?_, fun xs ys => List.filter_append _ _, ?_⟩
  · rw [filterDuplicates, List.mem_filter]
    simp
  · simp [filterDuplicates, isDuplicate]

/-- C4: `getRetrievedContext` returns the fixed sentinel exactly when the
suite is absent from the store or has zero test cases; otherwise it renders
the suite's test cases as four-line blocks joined by the separator line in
insertion order; and `createPrompt` treats the sentinel exactly like an
absent context, so the sentinel is never embedded in the generation request. -/
theorem C4_buildContext_spec (db : Store) (sid : String) :
    (getRetrievedContext db sid = SENTINEL ↔
      db.lookup sid = none ∨ ∃ sd, db.lookup sid = some sd ∧ sd.testCases = []) ∧
    (∀ (p : LLMProvider) (req ct : String),
      createPrompt p req ct (some SENTINEL) = createPrompt p req ct none) ∧
    (∀ sd, db.lookup sid = some sd → sd.testCases ≠ [] →
      getRetrievedContext db sid =
        joinSep "\n---\n" (sd.testCases.map renderTestCase)) := by
  refine ⟨?_, fun p req ct => createPrompt_sentinel p req ct, ?_⟩
  · unfold getRetrievedContext
    cases h : db.lookup sid with
    | none => simp
    | some sd =>
      dsimp only
      by_cases he : sd.testCases.length = 0
      · rw [if_pos he]
        simp only [List.length_eq_zero] at he
        simp [he]
      · rw [if_neg he]
        have hne : sd.testCases ≠ [] := by
          intro h0
          exact he (by rw [h0]; rfl)
        constructor
        · intro hj
          exact absurd hj (joined_render_ne_sentinel _ hne)
        · rintro (h0 | ⟨sd2, hsd2, hemp⟩)
          · cases h0
          · injection hsd2 with h3
            subst h3
            exact absurd hemp hne
  · intro sd hsd hne
    unfold getRetrievedContext
    rw [hsd]
    dsimp only
    rw [if_neg (fun h0 => hne (List.length_eq_zero.mp h0))]

/-- C4 witness: the seeded Voyager suite is non-empty, so its context is the
rendered block list, and the sentinel prompt equals the no-context prompt. -/
theorem C4_buildContext_spec_witness :
    (getRetrievedContext MOCK_DB "suite-proj-voyager" = SENTINEL ↔
      MOCK_DB.lookup "suite-proj-voyager" = none ∨
        ∃ sd, MOCK_DB.lookup "suite-proj-voyager" = some sd ∧ sd.testCases = []) ∧
    createPrompt LLMProvider.gemini "reqs" "REQUIREMENTS" (some SENTINEL) =
      createPrompt LLMProvider.gemini "reqs" "REQUIREMENTS" none ∧
    getRetrievedContext MOCK_DB "suite-proj-voyager" =
      joinSep "\n---\n"
        (((MOCK_DB.lookup "suite-proj-voyager").getD ⟨"", []⟩).testCases.map renderTestCase) := by
  obtain ⟨h1, h2, h3⟩ := C4_buildContext_spec MOCK_DB "suite-proj-voyager"
  exact ⟨h1, h2 _ _ _, h3 _ (by decide) (by decide)⟩

/-- C5 counterexample: two registrations in the same instant (equal
`Date.now()` values) return the same identifier, and the second call leaves
the store unchanged — the claim that identifiers are distinct even within
the same instant fails. -/
theorem C5_counterexample :
    (registerNewSuite (registerNewSuite [] 0 "Suite A").2 0 "Suite B").1.1 =
      (registerNewSuite [] 0 "Suite A").1.1 ∧
    (registerNewSuite (registerNewSuite [] 0 "Suite A").2 0 "Suite B").2 =
      (registerNewSuite [] 0 "Suite A").2 := by
  constructor <;> decide

/-- C5 (amended): suite creation returns distinct identifiers whenever the
two calls observe distinct `Date.now()` values; calls within the same
instant collide. -/
theorem C5_distinct_timestamps (db1 db2 : Store) (t1 t2 : Nat) (n1 n2 : String)
    (h : t1 ≠ t2) :
    (registerNewSuite db1 t1 n1).1.1 ≠ (registerNewSuite db2 t2 n2).1.1 := by
  rw [registerNewSuite_fst, registerNewSuite_fst]
  intro heq
  exact h (suiteIdFor_inj t1 t2 heq)

/-- C5 witness: registrations at times 0 and 1 get distinct identifiers. -/
theorem C5_distinct_timestamps_witness :
    (0 : Nat) ≠ 1 ∧
    (registerNewSuite [] 0 "Suite A").1.1 ≠ (registerNewSuite [] 1 "Suite B").1.1 :=
  ⟨by decide, C5_distinct_timestamps [] [] 0 1 "Suite A" "Suite B" (by decide)⟩

/-- C6: both generation entry points treat a response that trims to the
empty string or to the literal `[]` as zero candidates (returning an empty
sequence, not an error), and strip wrapping code-fence markers before the
response reaches the JSON parser, so a fenced payload yields the same result
as the bare payload. -/
theorem C6_empty_and_fences (db : Store) (p : LLMProvider) (req img : String)
    (sid : Option String) (parse : String → Option (List TestCase)) :
    (∀ raw, jsTrim raw = "" ∨ jsTrim raw = "[]" →
      (generateTestCasesFromText db p req sid raw parse).2 = some [] ∧
      (generateTestCasesFromScreenshot db p img sid raw parse).2 = some []) ∧
    (∀ body, jsTrim body = body → body ≠ "" → body ≠ "[]" →
      jsStartsWith body "```" = false →
      (generateTestCasesFromText db p req sid ("```json\n" ++ body ++ "\n```") parse).2 =
        (generateTestCasesFromText db p req sid body parse).2 ∧
      (generateTestCasesFromScreenshot db p img sid ("```json\n" ++ body ++ "\n```") parse).2 =
        (generateTestCasesFromScreenshot db p img sid body parse).2) := by
  constructor
  · intro raw h
    refine ⟨gen_zero_results db p req sid parse raw h, ?_⟩
    rw [gen_snd_eq db p req img sid raw parse]
    exact gen_zero_results db p req sid parse raw h
  · intro body ht h1 h2 h3
    refine ⟨gen_fenced db p req sid parse body ht h1 h2 h3, ?_⟩
    rw [gen_snd_eq db p req img sid _ parse, gen_snd_eq db p req img sid body parse]
    exact gen_fenced db p req sid parse body ht h1 h2 h3

/-- C6 witness: a whitespace response, a padded `[]` response, and a fenced
`[1]` payload, all at concrete inputs. -/
theorem C6_empty_and_fences_witness :
    (generateTestCasesFromText [] LLMProvider.gemini "r" none "  " (fun _ => none)).2 =
      some [] ∧
    (generateTestCasesFromText [] LLMProvider.gemini "r" none " [] " (fun _ => none)).2 =
      some [] ∧
    (generateTestCasesFromText [] LLMProvider.gemini "r" none
        ("```json\n" ++ "[1]" ++ "\n```") (fun _ => none)).2 =
      (generateTestCasesFromText [] LLMProvider.gemini "r" none "[1]" (fun _ => none)).2 :=
  ⟨((C6_empty_and_fences [] LLMProvider.gemini "r" "img" none (fun _ => none)).1
      "  " (Or.inl (by decide))).1,
    ((C6_empty_and_fences [] LLMProvider.gemini "r" "img" none (fun _ => none)).1
      " [] " (Or.inr (by decide))).1,
    ((C6_empty_and_fences [] LLMProvider.gemini "r" "img" none (fun _ => none)).2
      "[1]" (by decide) (by decide) (by decide) (by decide)).1⟩

/-- C7: `deleteSuite` returns `true` iff a suite with the identifier existed
(and removes exactly that entry, leaving other identifiers untouched);
deleting a missing identifier — including a second delete of the same one —
returns `false` without an error. -/
theorem C7_deleteSuite_spec (db : Store) (sid : String) :
    ((deleteSuite db sid).1 = true ↔ ∃ sd, db.lookup sid = some sd) ∧
    (deleteSuite db sid).2.lookup sid = none ∧
    (deleteSuite (deleteSuite db sid).2 sid).1 = false ∧
    (∀ k, k ≠ sid → (deleteSuite db sid).2.lookup k = db.lookup k) := by
  rcases h : db.lookup sid with _ | sd
  · have hd : deleteSuite db sid = (false, db) := by
      unfold deleteSuite
      rw [h]
    rw [hd]
    refine ⟨by simp, h, ?_, fun k hk => rfl⟩
    show (deleteSuite db sid).1 = false
    rw [hd]
  · have hd : deleteSuite db sid = (true, db.filter fun kv => !(kv.1 == sid)) := by
      unfold deleteSuite
      rw [h]
    rw [hd]
    refine ⟨by simp, lookup_filter_self db sid, ?_,
      fun k hk => lookup_filter_other db sid k hk⟩
    show (deleteSuite (db.filter fun kv => !(kv.1 == sid)) sid).1 = false
    unfold deleteSuite
    rw [show (db.filter fun kv => !(kv.1 == sid)).lookup sid = none from
      lookup_filter_self db sid]

/-- C7 witness: deleting the seeded Apollo suite at concrete inputs. -/
theorem C7_deleteSuite_spec_witness :
    ((deleteSuite MOCK_DB "suite-proj-apollo").1 = true ↔
      ∃ sd, MOCK_DB.lookup "suite-proj-apollo" = some sd) ∧
    (deleteSuite MOCK_DB "suite-proj-apollo").2.lookup "suite-proj-apollo" = none ∧
    (deleteSuite (deleteSuite MOCK_DB "suite-proj-apollo").2 "suite-proj-apollo").1 = false ∧
    (deleteSuite MOCK_DB "suite-proj-apollo").2.lookup "suite-proj-gemini" =
      MOCK_DB.lookup "suite-proj-gemini" := by
  obtain ⟨h1, h2, h3, h4⟩ := C7_deleteSuite_spec MOCK_DB "suite-proj-apollo"
  exact ⟨h1, h2, h3, h4 "suite-proj-gemini" (by decide)⟩

/-- C8: similarity is symmetric, and every string with at least one token
after normalization has self-similarity 1. -/
theorem C8_similarity_symm_self :
    (∀ a b : String, getJaccardSimilarity a b = getJaccardSimilarity b a) ∧
    (∀ s : String, normalizeForComparison s ≠ "" → getJaccardSimilarity s s = 1) :=
  ⟨getJaccardSimilarity_symm, fun s _ => getJaccardSimilarity_self s⟩

/-- C8 witness: symmetry and self-similarity at concrete strings. -/
theorem C8_similarity_symm_self_witness :
    getJaccardSimilarity "User Login" "Login User" =
      getJaccardSimilarity "Login User" "User Login" ∧
    normalizeForComparison "User Login" ≠ "" ∧
    getJaccardSimilarity "User Login" "User Login" = 1 :=
  ⟨C8_similarity_symm_self.1 "User Login" "Login User", by decide,
    C8_similarity_symm_self.2 "User Login" (by decide)⟩

/-- C9: for every suite state and raw service response, the text and
screenshot entry points apply identical post-generation processing (trim,
empty-response handling, fence stripping, parsing, deduplication) and return
the same final sequence of test cases. -/
theorem C9_same_postprocessing (db : Store) (p : LLMProvider) (req img : String)
    (sid : Option String) (resp : String) (parse : String → Option (List TestCase)) :
    (generateTestCasesFromScreenshot db p img sid resp parse).2 =
      (generateTestCasesFromText db p req sid resp parse).2 :=
  gen_snd_eq db p req img sid resp parse

/-- C10: a generation call with a suite identifier absent from the store
does not fail; it behaves exactly like a call with no suite selected — the
retrieved context is the sentinel, so the no-context prompt is composed, and
the parsed candidates are returned without any deduplication. -/
theorem C10_unknown_suite (db : Store) (p : LLMProvider) (req sid resp : String)
    (parse : String → Option (List TestCase)) (hmiss : db.lookup sid = none) :
    generateTestCasesFromText db p req (some sid) resp parse =
      generateTestCasesFromText db p req none resp parse := by
  by_cases hsid : sid = ""
  · subst hsid
    rfl
  · exact gen_unknown_suite db p req sid resp parse hsid hmiss

/-- C10 witness: an identifier missing from the seeded store, at concrete
inputs. -/
theorem C10_unknown_suite_witness :
    generateTestCasesFromText MOCK_DB LLMProvider.gemini "reqs" (some "suite-missing")
        "[]" (fun _ => none) =
      generateTestCasesFromText MOCK_DB LLMProvider.gemini "reqs" none "[]"
        (fun _ => none) :=
  C10_unknown_suite MOCK_DB LLMProvider.gemini "reqs" "suite-missing" "[]"
    (fun _ => none) (by decide)

end TCGen
